import Mathlib

/-!
Verification of the Proof-of-life backend (Verification Session Protocol core)
against its natural-language specification.

Shallow embedding notes.
* Python floats are modelled as rationals (`ℚ`); timestamps (`time.time()`)
  are explicit `now : ℚ` parameters.
* The SQLite tables behind `DatabaseService` (sessions, nonces) are modelled
  as lists of row structures, with each SQL statement translated to the
  corresponding list operation.
* RSA signing in `TokenIssuer` is modelled symbolically: a key pair is
  identified by an abstract `keyId`, and a signature verifies exactly when it
  was produced by the private key of the pair whose public key is used for
  verification.  `jwt.decode` is modelled by its observable outcomes
  (success, expired, bad signature, any other `InvalidTokenError`), in the
  order PyJWT performs the checks: parse, signature, `exp`, `iss`.
* `secrets.choice` / `secrets.token_hex` are modelled with an explicit
  randomness oracle supplying the choices and the 16 random bytes.
-/

namespace ProofOfLife

/-! ### Configuration constants (src/backend/app/config.py, default values) -/

namespace Config

def MAX_SESSION_DURATION_SECONDS : Nat := 120

def MAX_CONSECUTIVE_FAILURES : Nat := 3

def CHALLENGE_TIMEOUT_SECONDS : Nat := 10

def NONCE_EXPIRY_HOURS : Nat := 24

end Config

/-! ### Scoring engine

`app/services/scoring_engine.py` is exercised by
`tests/test_scoring_engine.py` but its source is not part of the
repository snapshot, so the aggregator is modelled from the spec. -/

structure ScoringResult where
  liveness_score : ℚ
  deepfake_score : ℚ
  emotion_score : ℚ
  final_score : ℚ
  passed : Bool
  timestamp : ℚ
deriving DecidableEq

namespace ScoringEngine

def LIVENESS_WEIGHT : ℚ := 4/10

def DEEPFAKE_WEIGHT : ℚ := 3/10

def EMOTION_WEIGHT : ℚ := 3/10

def THRESHOLD : ℚ := 70/100

/-- Modelled from the spec: `ScoringEngine.compute_final_score`
(`app/services/scoring_engine.py`, absent from the snapshot; behaviour
fixed by spec section 4.3 and `tests/test_scoring_engine.py`):
final = 0.4·liveness + 0.3·deepfake + 0.3·emotion, passed iff final ≥ 0.70,
component scores preserved, timestamp set to the current time. -/
def compute_final_score (liveness_score deepfake_score emotion_score : ℚ)
    (now : ℚ) : ScoringResult :=
  let final : ℚ := LIVENESS_WEIGHT * liveness_score
    + DEEPFAKE_WEIGHT * deepfake_score + EMOTION_WEIGHT * emotion_score
  { liveness_score := liveness_score
    deepfake_score := deepfake_score
    emotion_score := emotion_score
    final_score := final
    passed := decide (THRESHOLD ≤ final)
    timestamp := now }

end ScoringEngine

/-! ### Token issuer (src/backend/app/services/token_issuer.py) -/

/-- Result record returned by `TokenIssuer.validate_token`
(`TokenValidation` in `app/models/data_models.py`; field list as used by
`token_issuer.py`). -/
structure TokenValidation where
  valid : Bool
  user_id : Option String
  session_id : Option String
  issued_at : Option ℚ
  expires_at : Option ℚ
  error : Option String
deriving DecidableEq

namespace TokenIssuer

def TOKEN_EXPIRY_MINUTES : Nat := 15

def ISSUER : String := "proof-of-life-auth"

/-- JWT claim set built by `issue_jwt_token`. -/
structure JwtPayload where
  sub : String
  session_id : String
  final_score : ℚ
  iat : ℚ
  exp : ℚ
  iss : String
deriving DecidableEq

/-- A structurally well-formed signed JWT: the claims plus the identity of
the RSA key pair whose private key produced the signature. -/
structure JwtToken where
  payload : JwtPayload
  sigKeyId : Nat
deriving DecidableEq

/-- An issuer instance holds one RSA key pair, identified symbolically. -/
structure State where
  keyId : Nat

/-- Input to `validate_token`: an arbitrary string either parses as a
signed JWT or is malformed (any `DecodeError` inside `jwt.decode`). -/
inductive JwtInput where
  | wellFormed (tok : JwtToken)
  | malformed (msg : String)

/-- Outcomes of `jwt.decode` as observed by `validate_token`:
`ExpiredSignatureError`, `InvalidSignatureError`, or any other
`InvalidTokenError` (malformed input, issuer mismatch, ...). -/
inductive JwtError where
  | expiredSignature
  | invalidSignature
  | invalidToken (msg : String)

/-- `jwt.encode(payload, private_key, algorithm="RS256")` for the payload
built in `issue_jwt_token`: `iat = time.time()`,
`exp = iat + TOKEN_EXPIRY_MINUTES * 60`. -/
def issue_jwt_token (t : State) (user_id session_id : String)
    (final_score : ℚ) (now : ℚ) : JwtToken :=
  { payload :=
      { sub := user_id
        session_id := session_id
        final_score := final_score
        iat := now
        exp := now + (TOKEN_EXPIRY_MINUTES * 60 : Nat)
        iss := ISSUER }
    sigKeyId := t.keyId }

/-- `jwt.decode(token, public_key, algorithms=["RS256"], issuer=ISSUER)`:
parse, verify the signature, check `exp` against `now`, check `iss`. -/
def jwt_decode (verifyKeyId : Nat) (expectedIss : String) (now : ℚ)
    (input : JwtInput) : Except JwtError JwtPayload :=
  match input with
  | .malformed msg => .error (.invalidToken msg)
  | .wellFormed tok =>
    if tok.sigKeyId ≠ verifyKeyId then .error .invalidSignature
    else if tok.payload.exp ≤ now then .error .expiredSignature
    else if tok.payload.iss ≠ expectedIss then
      .error (.invalidToken "Invalid issuer")
    else .ok tok.payload

/-- `TokenIssuer.validate_token`: the try/except around `jwt.decode`,
returning a `TokenValidation` value on every path. -/
def validate_token (t : State) (now : ℚ) (input : JwtInput) :
    TokenValidation :=
  match jwt_decode t.keyId ISSUER now input with
  | .ok payload =>
    { valid := true
      user_id := some payload.sub
      session_id := some payload.session_id
      issued_at := some payload.iat
      expires_at := some payload.exp
      error := none }
  | .error .expiredSignature =>
    { valid := false, user_id := none, session_id := none
      issued_at := none, expires_at := none
      error := some "Token has expired" }
  | .error .invalidSignature =>
    { valid := false, user_id := none, session_id := none
      issued_at := none, expires_at := none
      error := some "Invalid token signature" }
  | .error (.invalidToken msg) =>
    { valid := false, user_id := none, session_id := none
      issued_at := none, expires_at := none
      error := some ("Invalid token: " ++ msg) }

/-- Python truthiness of an `Optional[str]` argument: `None` and `""` are
falsy, every other string is truthy. -/
def pyTruthyStr : Option String → Bool
  | none => false
  | some s => !(s == "")

/-- Key material selected by `TokenIssuer.__init__`. -/
inductive KeyMaterial where
  | supplied (private_key public_key : String)
  | generated (key_size : Nat) (keyId : Nat)
deriving DecidableEq

/-- `TokenIssuer.__init__`: `if private_key and public_key:` keep the two
PEM strings, `else` call `_generate_key_pair()`, which creates a fresh
2048-bit RSA pair (`rsa.generate_private_key(..., key_size=2048, ...)`). -/
def init (private_key public_key : Option String) (freshKeyId : Nat) :
    KeyMaterial :=
  if pyTruthyStr private_key && pyTruthyStr public_key then
    .supplied (private_key.getD "") (public_key.getD "")
  else
    .generated 2048 freshKeyId

end TokenIssuer

/-! ### SQLite-backed database service
(src/backend/app/services/database_service_sqlite_backup.py)

Each table is a list of rows in insertion order; SQL statements are
translated to the corresponding list operations. -/

/-- Row of the `nonces` table. -/
structure NonceRecord where
  nonce : String
  session_id : String
  created_at : ℚ
  expires_at : ℚ
deriving DecidableEq

/-- The `nonces` table. -/
abbrev NonceStore := List NonceRecord

namespace DatabaseService

/-- `check_nonce_used`: `SELECT COUNT(*) FROM nonces WHERE nonce = ?`,
then `count > 0`.  Pure existence check: the row's own `expires_at`
is not consulted. -/
def check_nonce_used (db : NonceStore) (nonce : String) : Bool :=
  decide (0 < (db.filter (fun r => r.nonce == nonce)).length)

/-- `store_nonce`: `INSERT INTO nonces (nonce, session_id, created_at,
expires_at) VALUES (?, ?, ?, ?)` with `created_at = time.time()`. -/
def store_nonce (db : NonceStore) (nonce session_id : String)
    (created_at expires_at : ℚ) : NonceStore :=
  db ++ [{ nonce := nonce, session_id := session_id,
           created_at := created_at, expires_at := expires_at }]

/-- `purge_expired_nonces`: `DELETE FROM nonces WHERE expires_at < ?`
with the current time; returns the remaining table and
`cursor.rowcount`, the number of deleted rows. -/
def purge_expired_nonces (db : NonceStore) (now : ℚ) : NonceStore × Nat :=
  let kept := db.filter (fun r => !(decide (r.expires_at < now)))
  (kept, db.length - kept.length)

/-- Session lifecycle states (`SessionStatus` in
`app/models/data_models.py`; values `ACTIVE`, `COMPLETED`, `FAILED`,
`TIMEOUT` per spec section 4.1). -/
inductive SessionStatus where
  | active
  | completed
  | failed
  | timeout
deriving DecidableEq

/-- Row of the `sessions` table (columns selected by `get_session`). -/
structure SessionRow where
  session_id : String
  user_id : String
  start_time : ℚ
  end_time : Option ℚ
  status : SessionStatus
  failed_count : Nat
deriving DecidableEq

/-- The `sessions` table. -/
abbrev SessionTable := List SessionRow

/-- `get_session`: `SELECT ... FROM sessions WHERE session_id = ?`,
`fetchone()` — the first matching row, or `None`. -/
def get_session (db : SessionTable) (session_id : String) :
    Option SessionRow :=
  (db.filter (fun r => r.session_id == session_id)).head?

/-- `update_session`: builds `UPDATE sessions SET ... WHERE session_id = ?`
from exactly the arguments that are not `None`; with no arguments it
returns without touching the table.  Columns not named in the SET list
keep their value. -/
def update_session (db : SessionTable) (session_id : String)
    (status : Option SessionStatus) (failed_count : Option Nat)
    (end_time : Option ℚ) : SessionTable :=
  if status = none ∧ failed_count = none ∧ end_time = none then db
  else
    db.map (fun r =>
      if r.session_id == session_id then
        { r with
          status := status.getD r.status
          failed_count := failed_count.getD r.failed_count
          end_time := end_time <|> r.end_time }
      else r)

end DatabaseService

/-! ### Convex-backed database service
(src/backend/app/services/database_service.py) -/

namespace ConvexDatabaseService

/-- `check_nonce_used` in the Convex-backed service: run the
`nonces:exists` query and return its boolean; `except Exception:
return False`.  The backend call is modelled by its outcome: either a
result or a raised exception. -/
def check_nonce_used (queryOutcome : Except String Bool) : Bool :=
  match queryOutcome with
  | .ok result => result
  | .error _ => false

end ConvexDatabaseService

/-! ### Session manager

`app/services/session_manager.py` is exercised by
`tests/test_session_manager.py` but its source is not part of the
repository snapshot; its operations are modelled from the spec on top of
the store-level `DatabaseService` operations above. -/

namespace SessionManager

open DatabaseService

/-- Modelled from the spec: `SessionManager.check_timeout`
(`app/services/session_manager.py`, absent from the snapshot; spec
section 4.1): true iff (now − start_time) strictly greater than
`MAX_SESSION_DURATION_SECONDS` (120 s); an unknown session counts as
timed out (fail-closed).  Pure query. -/
def check_timeout (db : SessionTable) (session_id : String) (now : ℚ) :
    Bool :=
  match get_session db session_id with
  | none => true
  | some s =>
    decide ((Config.MAX_SESSION_DURATION_SECONDS : ℚ) < now - s.start_time)

/-- Modelled from the spec: `SessionManager.update_session` /
`record_result` (`app/services/session_manager.py`, absent from the
snapshot; spec section 4.1): unknown session is an error
(`SessionNotFound`); `completed=true` resets the consecutive-failure
counter to 0, `completed=false` increments it; the new counter is
persisted through the store-level `update_session`, which receives only
the `failed_count` column. -/
def record_result (db : SessionTable) (session_id : String)
    (completed : Bool) : Except String SessionTable :=
  match get_session db session_id with
  | none => .error "SessionNotFound"
  | some s =>
    .ok (update_session db session_id none
      (some (if completed then 0 else s.failed_count + 1)) none)

end SessionManager

/-! ### Challenge engine (src/backend/app/services/challenge_engine.py) -/

/-- `ChallengeType` (`app/models/data_models.py`): the two challenge
kinds used by the engine. -/
inductive ChallengeType where
  | gesture
  | expression
deriving DecidableEq

/-- `Challenge` (`app/models/data_models.py`; fields as constructed in
`generate_challenge_sequence`). -/
structure Challenge where
  challenge_id : String
  type : ChallengeType
  instruction : String
  timeout_seconds : Nat
deriving DecidableEq

/-- `ChallengeSequence` (`app/models/data_models.py`; fields as
constructed in `generate_challenge_sequence`). -/
structure ChallengeSequence where
  session_id : String
  nonce : String
  timestamp : ℚ
  challenges : List Challenge
deriving DecidableEq

namespace ChallengeEngine

def GESTURE_POOL : List String :=
  ["nod_up", "nod_down", "turn_left", "turn_right", "tilt_left",
   "tilt_right", "open_mouth", "close_eyes", "raise_eyebrows", "blink"]

def EXPRESSION_POOL : List String :=
  ["smile", "frown", "surprised", "neutral", "angry"]

def GESTURE_INSTRUCTIONS : List (String × String) :=
  [("nod_up", "Nod your head up"),
   ("nod_down", "Nod your head down"),
   ("turn_left", "Turn your head to the left"),
   ("turn_right", "Turn your head to the right"),
   ("tilt_left", "Tilt your head to the left"),
   ("tilt_right", "Tilt your head to the right"),
   ("open_mouth", "Open your mouth wide"),
   ("close_eyes", "Close your eyes"),
   ("raise_eyebrows", "Raise your eyebrows"),
   ("blink", "Blink your eyes")]

def EXPRESSION_INSTRUCTIONS : List (String × String) :=
  [("smile", "Smile"),
   ("frown", "Frown"),
   ("surprised", "Look surprised"),
   ("neutral", "Keep a neutral expression"),
   ("angry", "Look angry")]

/-- Python dict lookup `GESTURE_INSTRUCTIONS[gesture]` (total on the
pool; the dict has exactly the pool as key set). -/
def gestureInstruction (gesture : String) : String :=
  (((GESTURE_INSTRUCTIONS.find? (fun p => p.1 == gesture)).map
    (fun p => p.2)).getD "")

/-- Python dict lookup `EXPRESSION_INSTRUCTIONS[expression]`. -/
def expressionInstruction (expression : String) : String :=
  (((EXPRESSION_INSTRUCTIONS.find? (fun p => p.1 == expression)).map
    (fun p => p.2)).getD "")

/-- Randomness consumed by one `generate_challenge_sequence` call:
the `secrets.choice` pick of kind and of pool element for each slot,
and the 16 random bytes drawn by `secrets.token_hex(16)`. -/
structure RandomOracle where
  kindChoice : Nat → ChallengeType
  gestureChoice : Nat → Fin GESTURE_POOL.length
  expressionChoice : Nat → Fin EXPRESSION_POOL.length
  nonceBytes : Fin 16 → Fin 256

/-- Hex rendering used by `secrets.token_hex`: two lowercase hex digits
per byte, most significant first.  (`Nat.digitChar` yields `0`-`9` and
lowercase `a`-`f` for values below 16.) -/
def hexChars : List (Fin 256) → List Char
  | [] => []
  | b :: bs =>
    Nat.digitChar (b.val / 16) :: Nat.digitChar (b.val % 16) :: hexChars bs

/-- `secrets.token_hex(16)` over the oracle's 16 random bytes:
`generate_nonce` returns their 32-character lowercase-hex rendering. -/
def generate_nonce (o : RandomOracle) : String :=
  ⟨hexChars (List.ofFn o.nonceBytes)⟩

/-- One loop iteration of `generate_challenge_sequence`: pick the kind,
pick the action from the matching pool, build the f-string id
`f"{session_id}_gesture_{i}_{gesture}"` (resp. `expression`), attach the
instruction and the hard-coded `timeout_seconds=8`. -/
def mkChallenge (o : RandomOracle) (session_id : String) (i : Nat) :
    Challenge :=
  match o.kindChoice i with
  | .gesture =>
    let gesture := GESTURE_POOL.get (o.gestureChoice i)
    { challenge_id :=
        session_id ++ "_gesture_" ++ Nat.repr i ++ "_" ++ gesture
      type := .gesture
      instruction := gestureInstruction gesture
      timeout_seconds := 8 }
  | .expression =>
    let expression := EXPRESSION_POOL.get (o.expressionChoice i)
    { challenge_id :=
        session_id ++ "_expression_" ++ Nat.repr i ++ "_" ++ expression
      type := .expression
      instruction := expressionInstruction expression
      timeout_seconds := 8 }

/-- `ChallengeEngine.generate_challenge_sequence`: one fresh nonce, the
call timestamp, and `num_challenges` independently drawn challenges. -/
def generate_challenge_sequence (o : RandomOracle) (session_id : String)
    (num_challenges : Nat) (now : ℚ) : ChallengeSequence :=
  { session_id := session_id
    nonce := generate_nonce o
    timestamp := now
    challenges := (List.range num_challenges).map (mkChallenge o session_id) }

end ChallengeEngine

/-! ### Proof-support definitions -/

/-- Decimal digit run of `n`, most significant first: the reference
characterisation of `Nat.repr` used to reason about the ordinal embedded
in a challenge id. -/
def decDigits (n : Nat) : List Char :=
  if _h : n < 10 then [Nat.digitChar n]
  else decDigits (n / 10) ++ [Nat.digitChar (n % 10)]
decreasing_by exact Nat.div_lt_self (by omega) (by omega)

/-- The `EXPIRED` error kind of `validate_token`. -/
def isExpiredKind (e : Option String) : Prop :=
  e = some "Token has expired"

/-- The `BAD_SIGNATURE` error kind of `validate_token`. -/
def isBadSignatureKind (e : Option String) : Prop :=
  e = some "Invalid token signature"

/-- The `MALFORMED` error kind of `validate_token`: any other
`InvalidTokenError`, reported as `f"Invalid token: {str(e)}"`. -/
def isMalformedKind (e : Option String) : Prop :=
  ∃ msg, e = some ("Invalid token: " ++ msg)

/-- Lowercase hexadecimal characters, the alphabet of
`secrets.token_hex`. -/
def isLowerHexChar (c : Char) : Bool :=
  c.isDigit || (decide ('a' ≤ c) && decide (c ≤ 'f'))

/-- A concrete randomness oracle, used to evaluate the theorems on
concrete inputs. -/
def demoOracle : ChallengeEngine.RandomOracle :=
  { kindChoice := fun i => if i % 2 = 0 then .gesture else .expression
    gestureChoice := fun i =>
      ⟨i % 10, by simp only [ChallengeEngine.GESTURE_POOL, List.length]; omega⟩
    expressionChoice := fun i =>
      ⟨i % 5, by simp only [ChallengeEngine.EXPRESSION_POOL, List.length]; omega⟩
    nonceBytes := fun i => ⟨(17 * i.val + 3) % 256, by omega⟩ }

/-- A concrete one-row session table: session `s1` started at time 0,
still active. -/
def demoSessions : DatabaseService.SessionTable :=
  [{ session_id := "s1", user_id := "u1", start_time := 0,
     end_time := none, status := .active, failed_count := 0 }]

/-! ## Helper lemmas: decimal representation of `Nat` -/

theorem decDigits_ne_nil (n : Nat) : decDigits n ≠ [] := by
  rw [decDigits]
  split <;> simp

theorem toDigitsCore_eq_decDigits (f : Nat) :
    ∀ n acc, n < f →
      Nat.toDigitsCore 10 f n acc = decDigits n ++ acc := by
  induction f with
  | zero => intro n acc h; omega
  | succ f ih =>
    intro n acc h
    show (if n / 10 = 0 then Nat.digitChar (n % 10) :: acc
      else Nat.toDigitsCore 10 f (n / 10) (Nat.digitChar (n % 10) :: acc))
      = decDigits n ++ acc
    rw [decDigits]
    by_cases h10 : n / 10 = 0
    · have hn : n < 10 := by omega
      rw [if_pos h10, dif_pos hn]
      have : n % 10 = n := by omega
      rw [this]
      rfl
    · have hn : ¬ n < 10 := by omega
      rw [if_neg h10, dif_neg hn,
        ih (n / 10) (Nat.digitChar (n % 10) :: acc) (by omega),
        List.append_assoc]
      rfl

theorem repr_data (n : Nat) : (Nat.repr n).data = decDigits n := by
  show (Nat.toDigits 10 n).asString.data = decDigits n
  rw [Nat.toDigits, toDigitsCore_eq_decDigits (n + 1) n [] (Nat.lt_succ_self n),
    List.append_nil]
  rfl

theorem digitChar_isDigit : ∀ m, m < 10 → (Nat.digitChar m).isDigit = true := by
  decide

theorem digitChar_inj_lt_ten :
    ∀ m, m < 10 → ∀ k, k < 10 → Nat.digitChar m = Nat.digitChar k → m = k := by
  decide

theorem decDigits_isDigit (n : Nat) :
    ∀ c ∈ decDigits n, c.isDigit = true := by
  induction n using Nat.strong_induction_on with
  | _ n ih =>
    rw [decDigits]
    split
    · next h =>
      intro c hc
      rw [List.mem_singleton] at hc
      subst hc
      exact digitChar_isDigit n h
    · next h =>
      intro c hc
      rw [List.mem_append] at hc
      rcases hc with hc | hc
      · exact ih (n / 10) (Nat.div_lt_self (by omega) (by omega)) c hc
      · rw [List.mem_singleton] at hc
        subst hc
        exact digitChar_isDigit (n % 10) (by omega)

theorem append_singleton_inj {l1 l2 : List Char} {a b : Char}
    (h : l1 ++ [a] = l2 ++ [b]) : l1 = l2 ∧ a = b := by
  have h' := congrArg List.reverse h
  simp only [List.reverse_append, List.reverse_singleton, List.singleton_append,
    List.cons.injEq] at h'
  exact ⟨List.reverse_injective h'.2, h'.1⟩

theorem decDigits_of_lt {n : Nat} (h : n < 10) :
    decDigits n = [Nat.digitChar n] := by
  rw [decDigits, dif_pos h]

theorem decDigits_of_ge {n : Nat} (h : ¬ n < 10) :
    decDigits n = decDigits (n / 10) ++ [Nat.digitChar (n % 10)] := by
  conv_lhs => rw [decDigits]
  rw [dif_neg h]

theorem decDigits_inj : ∀ m, ∀ n, decDigits m = decDigits n → m = n := by
  intro m
  induction m using Nat.strong_induction_on with
  | _ m ih =>
    intro n h
    by_cases hm : m < 10 <;> by_cases hn : n < 10
    · rw [decDigits_of_lt hm, decDigits_of_lt hn, List.cons.injEq] at h
      exact digitChar_inj_lt_ten m hm n hn h.1
    · exfalso
      rw [decDigits_of_lt hm, decDigits_of_ge hn] at h
      have hl := congrArg List.length h
      rw [List.length_append, List.length_singleton, List.length_singleton] at hl
      have : decDigits (n / 10) = [] := List.eq_nil_of_length_eq_zero (by omega)
      exact decDigits_ne_nil _ this
    · exfalso
      rw [decDigits_of_ge hm, decDigits_of_lt hn] at h
      have hl := congrArg List.length h
      rw [List.length_append, List.length_singleton, List.length_singleton] at hl
      have : decDigits (m / 10) = [] := List.eq_nil_of_length_eq_zero (by omega)
      exact decDigits_ne_nil _ this
    · rw [decDigits_of_ge hm, decDigits_of_ge hn] at h
      obtain ⟨hquot, hrem⟩ := append_singleton_inj h
      have h1 : m / 10 = n / 10 :=
        ih (m / 10) (Nat.div_lt_self (by omega) (by omega)) (n / 10) hquot
      have h2 : m % 10 = n % 10 :=
        digitChar_inj_lt_ten (m % 10) (by omega) (n % 10) (by omega) hrem
      omega

theorem nat_repr_inj {m n : Nat} (h : Nat.repr m = Nat.repr n) : m = n :=
  decDigits_inj m n (by rw [← repr_data, ← repr_data, h])

/-- Two digit runs followed by an underscore-separated tail can only be
equal segment by segment: the underscore is not a digit, so the digit
run is the maximal digit run in front of it. -/
theorem digits_sep_inj :
    ∀ (s t x y : List Char),
      (∀ c ∈ s, c.isDigit = true) → (∀ c ∈ t, c.isDigit = true) →
      s ++ '_' :: x = t ++ '_' :: y → s = t ∧ x = y := by
  intro s
  induction s with
  | nil =>
    intro t x y _ ht h
    cases t with
    | nil => simpa using h
    | cons c t' =>
      exfalso
      rw [List.nil_append, List.cons_append, List.cons.injEq] at h
      have : c.isDigit = true := ht c (List.mem_cons_self c t')
      rw [← h.1] at this
      simp at this
  | cons c s' ih =>
    intro t x y hs ht h
    cases t with
    | nil =>
      exfalso
      rw [List.nil_append, List.cons_append, List.cons.injEq] at h
      have : c.isDigit = true := hs c (List.mem_cons_self c s')
      rw [h.1] at this
      simp at this
    | cons d t' =>
      rw [List.cons_append, List.cons_append, List.cons.injEq] at h
      obtain ⟨rfl, h2⟩ := h
      obtain ⟨h3, h4⟩ := ih t' x y
        (fun e he => hs e (List.mem_cons_of_mem c he))
        (fun e he => ht e (List.mem_cons_of_mem c he)) h2
      exact ⟨by rw [h3], h4⟩

/-! ## Helper lemmas: challenge-id encoding -/

theorem gesture_id_inj {sid a b : String} {i j : Nat}
    (h : sid ++ "_gesture_" ++ Nat.repr i ++ "_" ++ a
       = sid ++ "_gesture_" ++ Nat.repr j ++ "_" ++ b) : i = j ∧ a = b := by
  have hd := congrArg String.data h
  simp only [String.data_append, List.append_assoc] at hd
  have hd2 := List.append_cancel_left hd
  simp only [List.cons_append, List.nil_append, List.cons.injEq, true_and] at hd2
  obtain ⟨h1, h2⟩ := digits_sep_inj (Nat.repr i).data (Nat.repr j).data
    a.data b.data
    (by rw [repr_data]; exact decDigits_isDigit i)
    (by rw [repr_data]; exact decDigits_isDigit j) hd2
  exact ⟨nat_repr_inj (String.ext h1), String.ext h2⟩

theorem expression_id_inj {sid a b : String} {i j : Nat}
    (h : sid ++ "_expression_" ++ Nat.repr i ++ "_" ++ a
       = sid ++ "_expression_" ++ Nat.repr j ++ "_" ++ b) : i = j ∧ a = b := by
  have hd := congrArg String.data h
  simp only [String.data_append, List.append_assoc] at hd
  have hd2 := List.append_cancel_left hd
  simp only [List.cons_append, List.nil_append, List.cons.injEq, true_and] at hd2
  obtain ⟨h1, h2⟩ := digits_sep_inj (Nat.repr i).data (Nat.repr j).data
    a.data b.data
    (by rw [repr_data]; exact decDigits_isDigit i)
    (by rw [repr_data]; exact decDigits_isDigit j) hd2
  exact ⟨nat_repr_inj (String.ext h1), String.ext h2⟩

theorem gesture_id_ne_expression_id {sid a b : String} {i j : Nat} :
    sid ++ "_gesture_" ++ Nat.repr i ++ "_" ++ a
      ≠ sid ++ "_expression_" ++ Nat.repr j ++ "_" ++ b := by
  intro h
  have hd := congrArg String.data h
  simp only [String.data_append, List.append_assoc] at hd
  have hd2 := List.append_cancel_left hd
  simp only [List.cons_append, List.nil_append, List.cons.injEq] at hd2
  exact absurd hd2.2.1 (by decide)

/-- The challenge id built for slot `i` determines the ordinal: two slots
of one sequence can never share an id. -/
theorem mkChallenge_id_inj (o : ChallengeEngine.RandomOracle)
    (sid : String) {i j : Nat}
    (h : (ChallengeEngine.mkChallenge o sid i).challenge_id
       = (ChallengeEngine.mkChallenge o sid j).challenge_id) : i = j := by
  unfold ChallengeEngine.mkChallenge at h
  cases hki : o.kindChoice i <;> cases hkj : o.kindChoice j <;>
    rw [hki, hkj] at h <;> simp only at h
  · exact (gesture_id_inj h).1
  · exact absurd h gesture_id_ne_expression_id
  · exact absurd h.symm gesture_id_ne_expression_id
  · exact (expression_id_inj h).1

/-! ## Helper lemmas: validate_token error strings -/

theorem invalid_token_msg_ne_expired (msg : String) :
    "Invalid token: " ++ msg ≠ "Token has expired" := by
  intro h
  have h1 : ("Invalid token: " ++ msg).data.head? = some 'I' := by
    rw [String.data_append]
    rfl
  rw [h] at h1
  exact absurd h1 (by decide)

theorem invalid_token_msg_ne_bad_signature (msg : String) :
    "Invalid token: " ++ msg ≠ "Invalid token signature" := by
  intro h
  have h1 : ("Invalid token: " ++ msg).data[13]? = some ':' := by
    rw [String.data_append]
    rfl
  rw [h] at h1
  exact absurd h1 (by decide)

/-! ## Claim theorems -/

/-- C1: for every liveness, deepfake and emotion score in [0,1],
`compute_final_score` returns `final_score = 0.4·liveness + 0.3·deepfake
+ 0.3·emotion` (the three weights summing to 1.0), and `passed` is true
iff `final_score ≥ 0.70`; a final score of exactly 0.70 passes and one of
0.69 fails. -/
theorem scoring_formula_correct (l d e now : ℚ)
    (_hl0 : 0 ≤ l) (_hl1 : l ≤ 1) (_hd0 : 0 ≤ d) (_hd1 : d ≤ 1)
    (_he0 : 0 ≤ e) (_he1 : e ≤ 1) :
    (ScoringEngine.compute_final_score l d e now).final_score
        = 4/10 * l + 3/10 * d + 3/10 * e
    ∧ ScoringEngine.LIVENESS_WEIGHT + ScoringEngine.DEEPFAKE_WEIGHT
        + ScoringEngine.EMOTION_WEIGHT = 1
    ∧ ((ScoringEngine.compute_final_score l d e now).passed = true
        ↔ 70/100 ≤ (ScoringEngine.compute_final_score l d e now).final_score)
    ∧ (ScoringEngine.compute_final_score (7/10) (7/10) (7/10) now).final_score
        = 70/100
    ∧ (ScoringEngine.compute_final_score (7/10) (7/10) (7/10) now).passed = true
    ∧ (ScoringEngine.compute_final_score (6/10) (8/10) (7/10) now).final_score
        = 69/100
    ∧ (ScoringEngine.compute_final_score (6/10) (8/10) (7/10) now).passed
        = false := by
  refine ⟨rfl, ?_, ?_, ?_, ?_, ?_, ?_⟩
  · norm_num [ScoringEngine.LIVENESS_WEIGHT, ScoringEngine.DEEPFAKE_WEIGHT,
      ScoringEngine.EMOTION_WEIGHT]
  · simp [ScoringEngine.compute_final_score, ScoringEngine.THRESHOLD,
      decide_eq_true_eq]
  · norm_num [ScoringEngine.compute_final_score, ScoringEngine.LIVENESS_WEIGHT,
      ScoringEngine.DEEPFAKE_WEIGHT, ScoringEngine.EMOTION_WEIGHT]
  · norm_num [ScoringEngine.compute_final_score, ScoringEngine.THRESHOLD,
      ScoringEngine.LIVENESS_WEIGHT, ScoringEngine.DEEPFAKE_WEIGHT,
      ScoringEngine.EMOTION_WEIGHT, decide_eq_true_eq]
  · norm_num [ScoringEngine.compute_final_score, ScoringEngine.LIVENESS_WEIGHT,
      ScoringEngine.DEEPFAKE_WEIGHT, ScoringEngine.EMOTION_WEIGHT]
  · norm_num [ScoringEngine.compute_final_score, ScoringEngine.THRESHOLD,
      ScoringEngine.LIVENESS_WEIGHT, ScoringEngine.DEEPFAKE_WEIGHT,
      ScoringEngine.EMOTION_WEIGHT, decide_eq_false_iff_not]

/-- Witness for C1 at liveness = deepfake = emotion = 1/2. -/
theorem scoring_formula_correct_witness :
    (ScoringEngine.compute_final_score (1/2) (1/2) (1/2) 0).final_score
      = 4/10 * (1/2) + 3/10 * (1/2) + 3/10 * (1/2) :=
  (scoring_formula_correct (1/2) (1/2) (1/2) 0 (by norm_num) (by norm_num)
    (by norm_num) (by norm_num) (by norm_num) (by norm_num)).1

/-- C2: validating a token immediately after issuing it with the same
`TokenIssuer` yields `valid = true`, the original subject and session id,
and `expires_at − issued_at = 900` seconds exactly. -/
theorem token_round_trip (t : TokenIssuer.State)
    (user_id session_id : String) (final_score now : ℚ) :
    (TokenIssuer.validate_token t now (.wellFormed
        (TokenIssuer.issue_jwt_token t user_id session_id final_score now))).valid
      = true
    ∧ (TokenIssuer.validate_token t now (.wellFormed
        (TokenIssuer.issue_jwt_token t user_id session_id final_score now))).user_id
      = some user_id
    ∧ (TokenIssuer.validate_token t now (.wellFormed
        (TokenIssuer.issue_jwt_token t user_id session_id final_score now))).session_id
      = some session_id
    ∧ (TokenIssuer.validate_token t now (.wellFormed
        (TokenIssuer.issue_jwt_token t user_id session_id final_score now))).issued_at
      = some now
    ∧ (TokenIssuer.validate_token t now (.wellFormed
        (TokenIssuer.issue_jwt_token t user_id session_id final_score now))).expires_at
      = some (now + 900)
    ∧ (now + 900) - now = 900 := by
  have h900 : ((TokenIssuer.TOKEN_EXPIRY_MINUTES * 60 : Nat) : ℚ) = 900 := by
    norm_num [TokenIssuer.TOKEN_EXPIRY_MINUTES]
  have hdec : TokenIssuer.jwt_decode t.keyId TokenIssuer.ISSUER now
      (.wellFormed (TokenIssuer.issue_jwt_token t user_id session_id final_score now))
      = .ok { sub := user_id, session_id := session_id,
              final_score := final_score, iat := now, exp := now + 900,
              iss := TokenIssuer.ISSUER } := by
    simp only [TokenIssuer.jwt_decode, TokenIssuer.issue_jwt_token, h900,
      ne_eq, not_true_eq_false, if_false]
    rw [if_neg (show ¬ (now + 900 ≤ now) by linarith)]
  rw [TokenIssuer.validate_token]
  rw [hdec]
  exact ⟨rfl, rfl, rfl, rfl, rfl, by ring⟩

/-- C3: `validate_token` is a total function into `TokenValidation` (the
try/except never lets an exception escape), and when `valid = false` its
error is exactly one of the three mutually exclusive kinds EXPIRED,
BAD_SIGNATURE and MALFORMED. -/
theorem validate_token_error_kinds (t : TokenIssuer.State) (now : ℚ)
    (input : TokenIssuer.JwtInput) :
    ((TokenIssuer.validate_token t now input).valid = true
      ∧ (TokenIssuer.validate_token t now input).error = none)
    ∨ ((TokenIssuer.validate_token t now input).valid = false
      ∧ ((isExpiredKind (TokenIssuer.validate_token t now input).error
            ∧ ¬ isBadSignatureKind (TokenIssuer.validate_token t now input).error
            ∧ ¬ isMalformedKind (TokenIssuer.validate_token t now input).error)
        ∨ (¬ isExpiredKind (TokenIssuer.validate_token t now input).error
            ∧ isBadSignatureKind (TokenIssuer.validate_token t now input).error
            ∧ ¬ isMalformedKind (TokenIssuer.validate_token t now input).error)
        ∨ (¬ isExpiredKind (TokenIssuer.validate_token t now input).error
            ∧ ¬ isBadSignatureKind (TokenIssuer.validate_token t now input).error
            ∧ isMalformedKind (TokenIssuer.validate_token t now input).error))) := by
  rw [TokenIssuer.validate_token]
  rcases hdec : TokenIssuer.jwt_decode t.keyId TokenIssuer.ISSUER now input with
    err | p
  case ok => exact Or.inl ⟨rfl, rfl⟩
  case error =>
    cases err with
    | expiredSignature =>
      refine Or.inr ⟨rfl, Or.inl ⟨rfl, ?_, ?_⟩⟩
      · intro hb
        rw [isBadSignatureKind] at hb
        simp only [Option.some.injEq] at hb
        exact absurd hb (by decide)
      · rintro ⟨msg, hm⟩
        simp only [Option.some.injEq] at hm
        exact invalid_token_msg_ne_expired msg hm.symm
    | invalidSignature =>
      refine Or.inr ⟨rfl, Or.inr (Or.inl ⟨?_, rfl, ?_⟩)⟩
      · intro hb
        rw [isExpiredKind] at hb
        simp only [Option.some.injEq] at hb
        exact absurd hb (by decide)
      · rintro ⟨msg, hm⟩
        simp only [Option.some.injEq] at hm
        exact invalid_token_msg_ne_bad_signature msg hm.symm
    | invalidToken msg =>
      refine Or.inr ⟨rfl, Or.inr (Or.inr ⟨?_, ?_, msg, rfl⟩)⟩
      · intro hb
        rw [isExpiredKind] at hb
        simp only [Option.some.injEq] at hb
        exact invalid_token_msg_ne_expired msg hb
      · intro hb
        rw [isBadSignatureKind] at hb
        simp only [Option.some.injEq] at hb
        exact invalid_token_msg_ne_bad_signature msg hb

/-- Lengths of the two complementary filters of a list add up to its
length. -/
theorem length_filter_add_length_filter_not {α : Type} (l : List α)
    (p : α → Bool) :
    (l.filter p).length + (l.filter (fun a => !(p a))).length = l.length := by
  induction l with
  | nil => rfl
  | cons a l ih =>
    by_cases h : p a = true
    · simp [List.filter_cons, h, ih]
      omega
    · simp [List.filter_cons, h, ih]
      omega

/-- C4: a stored nonce is reported used regardless of its own expiry; a
never-stored nonce is reported unused; `purge_expired_nonces` keeps
exactly the records whose `expires_at` is not strictly before `now`,
returns the number of removed records, and storing other nonces never
makes a used nonce report unused (purging is the only removal). -/
theorem nonce_store_spec :
    (∀ (db : NonceStore) (n sid : String) (c e : ℚ),
      DatabaseService.check_nonce_used
        (DatabaseService.store_nonce db n sid c e) n = true)
    ∧ (∀ (db : NonceStore) (n : String),
        (∀ r ∈ db, r.nonce ≠ n) →
        DatabaseService.check_nonce_used db n = false)
    ∧ (∀ (db : NonceStore) (now : ℚ) (r : NonceRecord),
        r ∈ (DatabaseService.purge_expired_nonces db now).1
          ↔ r ∈ db ∧ ¬ r.expires_at < now)
    ∧ (∀ (db : NonceStore) (now : ℚ),
        (DatabaseService.purge_expired_nonces db now).2
          = (db.filter (fun r => decide (r.expires_at < now))).length)
    ∧ (∀ (db : NonceStore) (now : ℚ),
        (DatabaseService.purge_expired_nonces db now).1.length
          + (DatabaseService.purge_expired_nonces db now).2 = db.length)
    ∧ (∀ (db : NonceStore) (n m sid : String) (c e : ℚ),
        DatabaseService.check_nonce_used db n = true →
        DatabaseService.check_nonce_used
          (DatabaseService.store_nonce db m sid c e) n = true) := by
  have hcount : ∀ (db : NonceStore) (now : ℚ),
      (DatabaseService.purge_expired_nonces db now).2
        = (db.filter (fun r => decide (r.expires_at < now))).length := by
    intro db now
    have h := length_filter_add_length_filter_not db
      (fun r => decide (r.expires_at < now))
    simp only [DatabaseService.purge_expired_nonces]
    omega
  refine ⟨?_, ?_, ?_, hcount, ?_, ?_⟩
  · intro db n sid c e
    simp [DatabaseService.check_nonce_used, DatabaseService.store_nonce,
      List.filter_append]
  · intro db n h
    have : db.filter (fun r => r.nonce == n) = [] := by
      rw [List.filter_eq_nil_iff]
      intro r hr
      simpa using h r hr
    simp [DatabaseService.check_nonce_used, this]
  · intro db now r
    simp [DatabaseService.purge_expired_nonces, List.mem_filter]
  · intro db now
    rw [hcount]
    have h := length_filter_add_length_filter_not db
      (fun r => decide (r.expires_at < now))
    simp only [DatabaseService.purge_expired_nonces]
    omega
  · intro db n m sid c e h
    simp only [DatabaseService.check_nonce_used, DatabaseService.store_nonce,
      List.filter_append, List.length_append, decide_eq_true_eq] at h ⊢
    omega

/-- Witness for C4 on concrete stores: the never-stored nonce branch at
the empty table, via the theorem itself. -/
theorem nonce_store_spec_witness :
    DatabaseService.check_nonce_used [] "a3f9" = false :=
  nonce_store_spec.2.1 [] "a3f9" (by simp)

/-- C9: the Convex-backed `check_nonce_used` maps any raised backend
exception to `False` — a nonce whose lookup fails is reported as never
used (fail-open) — while a successful query returns its boolean; in
contrast, the session timeout query treats an unknown session as timed
out (fail-closed). -/
theorem convex_nonce_check_fail_open (e : String) (b : Bool) :
    ConvexDatabaseService.check_nonce_used (.error e) = false
    ∧ ConvexDatabaseService.check_nonce_used (.ok b) = b
    ∧ (∀ (sid : String) (now : ℚ),
        SessionManager.check_timeout [] sid now = true) :=
  ⟨rfl, rfl, fun _ _ => rfl⟩

/-- C10: `TokenIssuer.__init__` uses caller-supplied key material only
when both keys are given (and non-empty, by Python truthiness); with
exactly one key given, the provided key is ignored and a fresh 2048-bit
RSA pair is generated. -/
theorem token_issuer_key_selection :
    (∀ (pk pub : Option String) (fresh : Nat) (priv2 pub2 : String),
      TokenIssuer.init pk pub fresh = .supplied priv2 pub2 →
      pk = some priv2 ∧ pub = some pub2)
    ∧ (∀ (s : String) (fresh : Nat),
        TokenIssuer.init (some s) none fresh = .generated 2048 fresh)
    ∧ (∀ (s : String) (fresh : Nat),
        TokenIssuer.init none (some s) fresh = .generated 2048 fresh) := by
  refine ⟨?_, ?_, ?_⟩
  · intro pk pub fresh priv2 pub2 h
    rw [TokenIssuer.init] at h
    by_cases hc : (TokenIssuer.pyTruthyStr pk
        && TokenIssuer.pyTruthyStr pub) = true
    · rw [if_pos hc] at h
      rw [Bool.and_eq_true] at hc
      cases pk with
      | none => exact absurd hc.1 (by simp [TokenIssuer.pyTruthyStr])
      | some s1 =>
        cases pub with
        | none => exact absurd hc.2 (by simp [TokenIssuer.pyTruthyStr])
        | some s2 =>
          simp only [Option.getD_some, TokenIssuer.KeyMaterial.supplied.injEq]
            at h
          exact ⟨by rw [h.1], by rw [h.2]⟩
    · rw [if_neg hc] at h
      exact absurd h (by simp)
  · intro s fresh
    simp [TokenIssuer.init, TokenIssuer.pyTruthyStr, Bool.and_false]
  · intro s fresh
    simp [TokenIssuer.init, TokenIssuer.pyTruthyStr, Bool.false_and]

/-- Witness for C10: both keys supplied and non-empty are used as
given. -/
theorem token_issuer_key_selection_witness :
    (some "PEMPRIV" : Option String) = some "PEMPRIV"
    ∧ (some "PEMPUB" : Option String) = some "PEMPUB" :=
  token_issuer_key_selection.1 (some "PEMPRIV") (some "PEMPUB") 0
    "PEMPRIV" "PEMPUB" (by decide)

/-- C6 counterexample: with the spec-modelled strict-greater-than check,
a session started exactly 120 seconds ago (start_time 0, now 120) is NOT
reported as timed out, contradicting the claim's boundary sentence that
a session started exactly 120 seconds ago is timed out. -/
theorem check_timeout_at_exactly_120_not_timed_out :
    SessionManager.check_timeout demoSessions "s1" 120 = false := by
  have hget : DatabaseService.get_session demoSessions "s1"
      = some { session_id := "s1", user_id := "u1", start_time := 0,
               end_time := none, status := .active, failed_count := 0 } := rfl
  rw [SessionManager.check_timeout, hget]
  simp [Config.MAX_SESSION_DURATION_SECONDS]

/-- C6 (amended): the timeout check is true iff now − start_time is
strictly greater than 120 seconds, an unknown session counts as timed
out (fail-closed); at the boundary, a session started exactly 120
seconds ago is not yet timed out (121 seconds is), and one started 119
seconds ago is not. -/
theorem check_timeout_spec :
    (∀ (db : DatabaseService.SessionTable) (sid : String) (now : ℚ)
        (s : DatabaseService.SessionRow),
      DatabaseService.get_session db sid = some s →
      (SessionManager.check_timeout db sid now = true
        ↔ 120 < now - s.start_time))
    ∧ (∀ (db : DatabaseService.SessionTable) (sid : String) (now : ℚ),
        DatabaseService.get_session db sid = none →
        SessionManager.check_timeout db sid now = true)
    ∧ SessionManager.check_timeout demoSessions "s1" 119 = false
    ∧ SessionManager.check_timeout demoSessions "s1" 120 = false
    ∧ SessionManager.check_timeout demoSessions "s1" 121 = true := by
  have hget : DatabaseService.get_session demoSessions "s1"
      = some { session_id := "s1", user_id := "u1", start_time := 0,
               end_time := none, status := .active, failed_count := 0 } := rfl
  refine ⟨?_, ?_, ?_, ?_, ?_⟩
  case refine_3 =>
    rw [SessionManager.check_timeout, hget]
    simp [Config.MAX_SESSION_DURATION_SECONDS]
    norm_num
  case refine_4 =>
    rw [SessionManager.check_timeout, hget]
    simp [Config.MAX_SESSION_DURATION_SECONDS]
  case refine_5 =>
    rw [SessionManager.check_timeout, hget]
    simp [Config.MAX_SESSION_DURATION_SECONDS]
    norm_num
  · intro db sid now s h
    rw [SessionManager.check_timeout, h]
    simp [Config.MAX_SESSION_DURATION_SECONDS]
  · intro db sid now h
    rw [SessionManager.check_timeout, h]

/-- Witness for C6 (amended): the fail-closed branch on the empty
table, via the theorem itself. -/
theorem check_timeout_spec_witness :
    SessionManager.check_timeout [] "nosuch" 0 = true :=
  check_timeout_spec.2.1 [] "nosuch" 0 rfl

/-- C7: every generated challenge carries the hard-coded
`timeout_seconds = 8` from `generate_challenge_sequence`, while the
configured `Config.CHALLENGE_TIMEOUT_SECONDS` — the externally asserted
contract (`tests/test_challenge_engine.py` line 132 expects 10) — is 10.
Evaluated at the concrete failing input `("sess", 1)`. -/
theorem challenge_timeout_divergence :
    ((ChallengeEngine.generate_challenge_sequence demoOracle "sess" 1 0).challenges.map
      (fun c => c.timeout_seconds)) = [8]
    ∧ ((ChallengeEngine.generate_challenge_sequence demoOracle "sess" 3 0).challenges.map
      (fun c => c.timeout_seconds)) = [8, 8, 8]
    ∧ Config.CHALLENGE_TIMEOUT_SECONDS = 10 :=
  ⟨rfl, rfl, rfl⟩

/-- C8: `record_result` (through the store-level `update_session` that
receives only `failed_count`) leaves every row's `status`, `user_id`,
`start_time` and `end_time` unchanged and preserves the table length;
the only change is the consecutive-failure counter of the addressed
session, reset to 0 on success and incremented on failure.  In
particular a terminal status is never changed by `record_result`. -/
theorem record_result_frame (db : DatabaseService.SessionTable)
    (sid : String) (completed : Bool) (db' : DatabaseService.SessionTable)
    (h : SessionManager.record_result db sid completed = .ok db') :
    db'.map (fun r => r.status) = db.map (fun r => r.status)
    ∧ db'.map (fun r => r.user_id) = db.map (fun r => r.user_id)
    ∧ db'.map (fun r => r.start_time) = db.map (fun r => r.start_time)
    ∧ db'.map (fun r => r.end_time) = db.map (fun r => r.end_time)
    ∧ db'.length = db.length
    ∧ ∀ s, DatabaseService.get_session db sid = some s →
        db' = db.map (fun r => if r.session_id == sid
          then { r with
                 failed_count := if completed then 0 else s.failed_count + 1 }
          else r) := by
  rw [SessionManager.record_result] at h
  cases hs : DatabaseService.get_session db sid with
  | none =>
    rw [hs] at h
    exact absurd h (by simp)
  | some s0 =>
    rw [hs] at h
    simp only [Except.ok.injEq] at h
    subst h
    rw [DatabaseService.update_session]
    rw [if_neg (by simp)]
    refine ⟨?_, ?_, ?_, ?_, ?_, ?_⟩
    · rw [List.map_map]
      refine List.map_congr_left ?_
      intro r _
      simp only [Function.comp]
      split <;> rfl
    · rw [List.map_map]
      refine List.map_congr_left ?_
      intro r _
      simp only [Function.comp]
      split <;> rfl
    · rw [List.map_map]
      refine List.map_congr_left ?_
      intro r _
      simp only [Function.comp]
      split <;> rfl
    · rw [List.map_map]
      refine List.map_congr_left ?_
      intro r _
      simp only [Function.comp]
      split <;> rfl
    · rw [List.length_map]
    · intro s hsome
      injection hsome with hss
      subst hss
      refine List.map_congr_left ?_
      intro r _
      simp only [Option.getD_some, Option.getD_none, Option.none_orElse]

/-- Witness for C8: one failed challenge on the demo table only bumps
the counter; statuses are untouched. -/
theorem record_result_frame_witness :
    ([{ session_id := "s1", user_id := "u1", start_time := 0,
        end_time := none, status := .active, failed_count := 1 }]
      : DatabaseService.SessionTable).map (fun r => r.status)
      = demoSessions.map (fun r => r.status) :=
  (record_result_frame demoSessions "s1" false
    [{ session_id := "s1", user_id := "u1", start_time := 0,
       end_time := none, status := .active, failed_count := 1 }]
    (by rfl)).1

/-! ## Helper lemmas: nonce hex rendering -/

theorem hexChars_length (l : List (Fin 256)) :
    (ChallengeEngine.hexChars l).length = 2 * l.length := by
  induction l with
  | nil => rfl
  | cons b bs ih =>
    rw [ChallengeEngine.hexChars, List.length_cons, List.length_cons,
      List.length_cons, ih]
    omega

theorem digitChar_lower_hex :
    ∀ m, m < 16 → isLowerHexChar (Nat.digitChar m) = true := by
  decide

theorem hexChars_lower_hex (l : List (Fin 256)) :
    ∀ c ∈ ChallengeEngine.hexChars l, isLowerHexChar c = true := by
  induction l with
  | nil => intro c hc; simp [ChallengeEngine.hexChars] at hc
  | cons b bs ih =>
    intro c hc
    rw [ChallengeEngine.hexChars] at hc
    rcases List.mem_cons.mp hc with h1 | hc1
    · subst h1
      exact digitChar_lower_hex _ (by have := b.isLt; omega)
    rcases List.mem_cons.mp hc1 with h2 | hc2
    · subst h2
      exact digitChar_lower_hex _ (by have := b.isLt; omega)
    · exact ih c hc2

/-- C5: `generate_challenge_sequence(session_id, n)` yields exactly `n`
challenges with pairwise distinct ids; the challenge in slot `i`
deterministically encodes the session id, the ordinal `i`, the kind and
the action drawn from the fixed catalog (10 gestures, 5 expressions),
with the matching instruction; the sequence carries exactly one nonce,
drawn from the 16 fresh random bytes (128 bits) and rendered as exactly
32 lowercase hexadecimal characters. -/
theorem generate_challenge_sequence_spec
    (o : ChallengeEngine.RandomOracle) (sid : String) (n : Nat) (now : ℚ) :
    (ChallengeEngine.generate_challenge_sequence o sid n now).challenges.length = n
    ∧ (ChallengeEngine.generate_challenge_sequence o sid n now).session_id = sid
    ∧ ((ChallengeEngine.generate_challenge_sequence o sid n now).challenges.map
        (fun c => c.challenge_id)).Pairwise (· ≠ ·)
    ∧ (∀ i, i < n → ∃ action,
        ((ChallengeEngine.generate_challenge_sequence o sid n now).challenges[i]?
            = some { challenge_id := sid ++ "_gesture_" ++ Nat.repr i ++ "_" ++ action
                     type := .gesture
                     instruction := ChallengeEngine.gestureInstruction action
                     timeout_seconds := 8 }
          ∧ action ∈ ChallengeEngine.GESTURE_POOL)
        ∨ ((ChallengeEngine.generate_challenge_sequence o sid n now).challenges[i]?
            = some { challenge_id := sid ++ "_expression_" ++ Nat.repr i ++ "_" ++ action
                     type := .expression
                     instruction := ChallengeEngine.expressionInstruction action
                     timeout_seconds := 8 }
          ∧ action ∈ ChallengeEngine.EXPRESSION_POOL))
    ∧ ChallengeEngine.GESTURE_POOL.length = 10
    ∧ ChallengeEngine.EXPRESSION_POOL.length = 5
    ∧ (ChallengeEngine.generate_challenge_sequence o sid n now).nonce
        = ChallengeEngine.generate_nonce o
    ∧ (ChallengeEngine.generate_challenge_sequence o sid n now).nonce.length = 32
    ∧ (∀ c ∈ (ChallengeEngine.generate_challenge_sequence o sid n now).nonce.data,
        isLowerHexChar c = true) := by
  refine ⟨?_, rfl, ?_, ?_, rfl, rfl, rfl, ?_, ?_⟩
  · simp [ChallengeEngine.generate_challenge_sequence]
  · have hmm : (ChallengeEngine.generate_challenge_sequence o sid n now).challenges.map
        (fun c => c.challenge_id)
        = (List.range n).map
            (fun i => (ChallengeEngine.mkChallenge o sid i).challenge_id) := by
      simp [ChallengeEngine.generate_challenge_sequence, List.map_map,
        Function.comp]
    rw [hmm]
    refine List.Pairwise.map _ ?_ (List.pairwise_lt_range n)
    intro a b hab hEq
    exact absurd (mkChallenge_id_inj o sid hEq) (Nat.ne_of_lt hab)
  · intro i hi
    have hidx : (ChallengeEngine.generate_challenge_sequence o sid n now).challenges[i]?
        = some (ChallengeEngine.mkChallenge o sid i) := by
      simp [ChallengeEngine.generate_challenge_sequence, List.getElem?_map,
        List.getElem?_range hi]
    cases hk : o.kindChoice i with
    | gesture =>
      refine ⟨ChallengeEngine.GESTURE_POOL.get (o.gestureChoice i),
        Or.inl ⟨?_, List.get_mem _ _ _⟩⟩
      rw [hidx]
      simp only [ChallengeEngine.mkChallenge, hk]
    | expression =>
      refine ⟨ChallengeEngine.EXPRESSION_POOL.get (o.expressionChoice i),
        Or.inr ⟨?_, List.get_mem _ _ _⟩⟩
      rw [hidx]
      simp only [ChallengeEngine.mkChallenge, hk]
  · show (ChallengeEngine.hexChars (List.ofFn o.nonceBytes)).length = 32
    rw [hexChars_length, List.length_ofFn]
  · intro c hc
    exact hexChars_lower_hex (List.ofFn o.nonceBytes) c hc

/-- Witness for C5 at the demo oracle, session `"sess"`, one slot. -/
theorem generate_challenge_sequence_spec_witness :
    ∃ action,
      ((ChallengeEngine.generate_challenge_sequence demoOracle "sess" 1 0).challenges[0]?
          = some { challenge_id := "sess" ++ "_gesture_" ++ Nat.repr 0 ++ "_" ++ action
                   type := .gesture
                   instruction := ChallengeEngine.gestureInstruction action
                   timeout_seconds := 8 }
        ∧ action ∈ ChallengeEngine.GESTURE_POOL)
      ∨ ((ChallengeEngine.generate_challenge_sequence demoOracle "sess" 1 0).challenges[0]?
          = some { challenge_id := "sess" ++ "_expression_" ++ Nat.repr 0 ++ "_" ++ action
                   type := .expression
                   instruction := ChallengeEngine.expressionInstruction action
                   timeout_seconds := 8 }
        ∧ action ∈ ChallengeEngine.EXPRESSION_POOL) :=
  (generate_challenge_sequence_spec demoOracle "sess" 1 0).2.2.2.1 0
    (by omega)

end ProofOfLife
